import Mathlib

/-!
Shallow embedding of the `gpiocount` kernel module (src/gpiocount.c): a
bounded counter displayed in binary on up to 8 GPIO-driven LEDs, with a
debounced push-button increment and a sysfs control surface.  Machine
integers are modelled as `Nat` with an explicit `% 2^w` wherever the C
stores into a fixed-width field; the GPIO / interrupt layer is modelled
as an environment of oracles plus a trace of hardware operations.
-/

namespace Gpiocount

/-- A hardware-capability call made by the module (GPIO layer side effects). -/
inductive HwOp where
  | dirOutput (gpio level : Nat)
  | setVal (gpio level : Nat)
  | unexport (gpio : Nat)
  | freeGpio (gpio : Nat)
  deriving Repr, DecidableEq

/-- One entry of `led_values`: `\x7b bool on; uint8_t gpio; \x7d`. -/
structure Led where
  is_on : Bool
  gpio : Nat
  deriving Repr, DecidableEq, Inhabited

/-- The module's static state.  `leds` models `led_values[0..led_count)`
(`led_count = leds.length`); the remaining fields are the statics of the
C file: `gpio_increment_button`, `value`, `max_value`, `max_possible`
(all `uint8_t`), `last_interrupt_time_msec` (`unsigned int`), and whether
a button interrupt handler is currently registered (`request_irq`
succeeded and `free_irq` has not been called since). -/
structure GState where
  leds : List Led
  gpio_increment_button : Nat
  value : Nat
  max_value : Nat
  max_possible : Nat
  last_interrupt_time_msec : Nat
  irq_registered : Bool
  deriving Repr, DecidableEq

/-- The external environment: the `enable_gpio` module parameter and the
hardware layer's responses (`gpio_is_valid`, and the result code that
`request_irq` returns). -/
structure Env where
  enable_gpio : Bool
  gpio_is_valid : Nat → Bool
  request_irq_result : Int

/-- State at module load: every counter field zero, no LEDs, no button. -/
def initState : GState :=
  { leds := [], gpio_increment_button := 0, value := 0, max_value := 0,
    max_possible := 0, last_interrupt_time_msec := 0, irq_registered := false }

/-- Environment with GPIO disabled (the no-hardware debugging mode). -/
def noGpio : Env :=
  { enable_gpio := false, gpio_is_valid := fun _ => true, request_irq_result := 0 }

/-- `increment_maybe_wrap` (gpiocount.c:44): if `value < max_possible`,
increment `value` and bump `max_value` when the new value exceeds it;
otherwise wrap `value` to 0 and report the wrap. -/
def increment_maybe_wrap (s : GState) : GState × Bool :=
  if s.value < s.max_possible then
    let v := (s.value + 1) % 256
    if s.max_value < v then
      ({ s with value := v, max_value := (s.max_value + 1) % 256 }, false)
    else
      ({ s with value := v }, false)
  else
    ({ s with value := 0 }, true)

/-- `zero_counters` (gpiocount.c:58): reset `value` and `max_possible`,
keeping `max_value` as a record. -/
def zero_counters (s : GState) : GState :=
  { s with value := 0, max_possible := 0 }

/-- The loop of `setup_max_possible`: `max_possible = (max_possible << 1) | 1`
executed once per assigned LED, in a `uint8_t`. -/
def mpLoop : Nat → Nat
  | 0 => 0
  | n + 1 => (mpLoop n * 2 + 1) % 256

/-- `setup_max_possible` (gpiocount.c:66): recompute `max_possible` from the
LED count and reset `value` to 0 when it no longer fits. -/
def setup_max_possible (s : GState) : GState :=
  let mp := mpLoop s.leds.length
  { s with max_possible := mp, value := if mp < s.value then 0 else s.value }

def MAX_LEDS : Nat := 8
def GPIO_MAX_DIGITS : Nat := 3

/-- Decimal value of the leading digit run of a buffer (what `sscanf "%u"`
consumes). -/
def digitsVal : List Char → Nat → Nat
  | [], acc => acc
  | c :: cs, acc => if c.isDigit then digitsVal cs (acc * 10 + (c.toNat - 48)) else acc

/-- `sscanf(gpio_digits, "%u", &ttt)` (gpiocount.c:114): the decimal value of
the leading digit run, stored into a `uint32_t`; when the buffer starts with a
non-digit the C leaves `ttt` uninitialized, modelled by the `uninit`
parameter. -/
def scanfU (uninit : Nat) (buf : List Char) : Nat :=
  match buf with
  | c :: _ => if c.isDigit then digitsVal buf 0 % 2 ^ 32 else uninit % 2 ^ 32
  | [] => uninit % 2 ^ 32

/-- The character scan of `assign_leds` (gpiocount.c:97): walk the
descriptor, buffering at most `GPIO_MAX_DIGITS` characters per field; at a
`','` or the terminating NUL, an empty buffer is an error (`none`), a full
LED table stops the scan, and otherwise the field's `sscanf` value is
appended (truncated to `uint8_t`).  `none` models the `-EINVAL` returns that
also reset `led_count` to 0. -/
def parseLoop (uninit : Nat) : List Char → List Char → List Led → Option (List Led)
  | [], buf, acc =>
    if buf.length = 0 then none
    else if MAX_LEDS ≤ acc.length then some acc
    else some (acc ++ [⟨false, scanfU uninit buf % 256⟩])
  | c :: rest, buf, acc =>
    if c = ',' then
      if buf.length = 0 then none
      else if MAX_LEDS ≤ acc.length then some acc
      else parseLoop uninit rest [] (acc ++ [⟨false, scanfU uninit buf % 256⟩])
    else
      if GPIO_MAX_DIGITS ≤ buf.length then none
      else parseLoop uninit rest (buf ++ [c]) acc

/-- The rollback loop of `assign_leds` (gpiocount.c:142):
`for (uint8_t j = j; j < i; j++) { gpio_set_value(..., 0); gpio_free(...); }`.
`j` is uninitialized in the C; its garbage starting value is the parameter
`j0`, so indices `j0, j0+1, ..., i-1` are driven off and freed. -/
def rollbackOps (leds : List Led) (j0 i : Nat) : List HwOp :=
  (List.range' j0 (i - j0)).flatMap fun j =>
    [HwOp.setVal (leds.getD j default).gpio 0, HwOp.freeGpio (leds.getD j default).gpio]

/-- The acquisition loop of `assign_leds` (gpiocount.c:135), iterating the
suffix of the LED table starting at index `i` (`all` is the full table, as
the rollback loop indexes into it): an invalid GPIO triggers the rollback
loop and `-ENODEV`; a valid one is configured as an output driven low. -/
def acquireGo (valid : Nat → Bool) (j0 : Nat) (all : List Led) :
    List Led → Nat → Int × List HwOp
  | [], _ => (0, [])
  | l :: rest, i =>
    if valid l.gpio then
      let r := acquireGo valid j0 all rest (i + 1)
      (r.1, HwOp.dirOutput l.gpio 0 :: r.2)
    else
      (-19, rollbackOps all j0 i)

/-- The acquisition loop started at index 0. -/
def acquireFrom (valid : Nat → Bool) (j0 : Nat) (leds : List Led) :
    Int × List HwOp :=
  acquireGo valid j0 leds leds 0

/-- `assign_leds` (gpiocount.c:87): refuse when LEDs are already assigned
(`-EPERM`), scan the descriptor (parse errors reset `led_count` and return
`-EINVAL`), recompute `max_possible`, and with GPIO enabled run the
acquisition loop; on an invalid pin the rollback runs, the counters are
zeroed and `-ENODEV` is returned (the LED table itself is not cleared).
Returns the new state, the result code, and the hardware-operation trace. -/
def assign_leds (env : Env) (uninit j0 : Nat) (desc : List Char) (s : GState) :
    GState × Int × List HwOp :=
  if 0 < s.leds.length then (s, -1, [])
  else
    match parseLoop uninit desc [] [] with
    | none => ({ s with leds := [] }, -22, [])
    | some leds =>
      let s1 := setup_max_possible { s with leds := leds }
      if env.enable_gpio then
        let r := acquireFrom env.gpio_is_valid j0 leds
        if r.1 = 0 then (s1, 0, r.2)
        else (zero_counters s1, r.1, r.2)
      else (s1, 0, [])

/-- `unassign_leds` (gpiocount.c:161): with GPIO enabled, drive each LED off,
unexport and free it; then clear the LED count. -/
def unassign_leds (env : Env) (s : GState) : GState × List HwOp :=
  ({ s with leds := [] },
   if env.enable_gpio then
     s.leds.flatMap fun l =>
       [HwOp.setVal l.gpio 0, HwOp.unexport l.gpio, HwOp.freeGpio l.gpio]
   else [])

/-- The bit loop of `set_leds_from_value` (gpiocount.c:187): shift the low
bit out of `bits` for each LED in order. -/
def setLedsLoop (bits : Nat) : List Led → List Led
  | [] => []
  | l :: ls => { l with is_on := decide (bits % 2 = 1) } :: setLedsLoop (bits / 2) ls

/-- `set_leds_from_value` (gpiocount.c:181): recompute every LED's `on` bit
from the current `value` (a `uint8_t`), then with GPIO enabled write each
level out. -/
def set_leds_from_value (env : Env) (s : GState) : GState × List HwOp :=
  let newleds := setLedsLoop (s.value % 256) s.leds
  ({ s with leds := newleds },
   if env.enable_gpio then
     newleds.map fun l => HwOp.setVal l.gpio (if l.is_on then 1 else 0)
   else [])

/-- Unsigned 32-bit subtraction `a - b` as the C computes
`interrupt_time_msec - last_interrupt_time_msec` (gpiocount.c:244). -/
def sub32 (a b : Nat) : Nat := (a % 2 ^ 32 + (2 ^ 32 - b % 2 ^ 32)) % 2 ^ 32

/-- `button_irq_handler` (gpiocount.c:239): with `now` the current
`since_epoch_msec()` reading, ignore the interrupt when fewer than 200 ms
have passed since the last accepted one (unsigned wraparound subtraction);
otherwise record the timestamp, increment the counter and re-apply the
LEDs. -/
def button_irq_handler (env : Env) (now : Nat) (s : GState) : GState × List HwOp :=
  if sub32 now s.last_interrupt_time_msec < 200 then (s, [])
  else
    set_leds_from_value env
      (increment_maybe_wrap { s with last_interrupt_time_msec := now % 2 ^ 32 }).1

/-- `assign_increment_button` (gpiocount.c:260): with GPIO enabled, an
invalid button GPIO yields `-EINVAL`; otherwise the pin is configured as an
input (the debounce hint's failure is only logged) and `request_irq`'s
result decides between a live registration and a returned error. -/
def assign_increment_button (env : Env) (s : GState) : GState × Int :=
  if env.enable_gpio then
    if env.gpio_is_valid s.gpio_increment_button = false then (s, -22)
    else if env.request_irq_result = 0 then ({ s with irq_registered := true }, 0)
    else (s, env.request_irq_result)
  else (s, 0)

/-- `unassign_increment_button` (gpiocount.c:296): with GPIO enabled and a
nonzero button pin recorded, free the interrupt and the pin. -/
def unassign_increment_button (env : Env) (s : GState) : GState :=
  if env.enable_gpio then
    if 0 < s.gpio_increment_button then { s with irq_registered := false } else s
  else s

/-- `value_store` (gpiocount.c:334): parse an unsigned decimal into a
`uint32_t`, store it into the `uint8_t` counter `value`, re-apply the LEDs,
and return `count` (reported to the writer as success). -/
def value_store (env : Env) (t count : Nat) (s : GState) : GState × Nat :=
  ((set_leds_from_value env { s with value := t % 2 ^ 32 % 256 }).1, count)

/-- `max_value_store` (gpiocount.c:352): parse an unsigned decimal into a
`uint32_t`, store it into the `uint8_t` `max_value`, and return `count`. -/
def max_value_store (t count : Nat) (s : GState) : GState × Nat :=
  ({ s with max_value := t % 2 ^ 32 % 256 }, count)

/-- `increment_store` (gpiocount.c:389): one increment plus LED re-apply. -/
def increment_store (env : Env) (count : Nat) (s : GState) : GState × Nat :=
  ((set_leds_from_value env (increment_maybe_wrap s).1).1, count)

/-- `gpio_leds_store` (gpiocount.c:378): release the current assignment,
re-parse and re-acquire from the descriptor, re-apply the LEDs, and return
`count`. -/
def gpio_leds_store (env : Env) (uninit j0 : Nat) (desc : List Char) (count : Nat)
    (s : GState) : GState × Nat :=
  let s1 := (unassign_leds env s).1
  let s2 := (assign_leds env uninit j0 desc s1).1
  ((set_leds_from_value env s2).1, count)

/-- `gpio_button_increment_store` (gpiocount.c:405): release any previous
button, record the new pin (a `uint8_t`), attempt the new assignment, and
return `count` whatever `assign_increment_button` returned. -/
def gpio_button_increment_store (env : Env) (t count : Nat) (s : GState) :
    GState × Nat :=
  let s1 := unassign_increment_button env s
  let s2 := { s1 with gpio_increment_button := t % 2 ^ 32 % 256 }
  ((assign_increment_button env s2).1, count)

/-- `n` consecutive calls of `increment_maybe_wrap`, with the list of the
wrap flags they returned, in call order. -/
def runIncrements : Nat → GState → GState × List Bool
  | 0, s => (s, [])
  | n + 1, s =>
    let r := increment_maybe_wrap s
    let r2 := runIncrements n r.1
    (r2.1, r.2 :: r2.2)

/-- Below the ceiling (with the ceiling in `uint8_t` range) the `% 256`
truncations of `increment_maybe_wrap` are inert: the value advances by one
and `max_value` is bumped by one exactly when the new value exceeds it. -/
theorem increment_lt_spec (s : GState) (hv : s.value < s.max_possible)
    (hmp : s.max_possible ≤ 255) :
    increment_maybe_wrap s =
      ({ s with value := s.value + 1,
                max_value := if s.max_value < s.value + 1 then s.max_value + 1
                             else s.max_value }, false) := by
  have h1 : (s.value + 1) % 256 = s.value + 1 := Nat.mod_eq_of_lt (by omega)
  unfold increment_maybe_wrap
  rw [if_pos hv]
  simp only [h1]
  by_cases h : s.max_value < s.value + 1
  · rw [if_pos h, if_pos h, Nat.mod_eq_of_lt (by omega)]
  · rw [if_neg h, if_neg h]

/-- At or above the ceiling, `increment_maybe_wrap` wraps the value to 0,
reports the wrap and leaves `max_value` alone. -/
theorem increment_ge_spec (s : GState) (hv : s.max_possible ≤ s.value) :
    increment_maybe_wrap s = ({ s with value := 0 }, true) := by
  unfold increment_maybe_wrap
  rw [if_neg (by omega)]

/-- C2, counterexample: from the override-reachable state `value = 5`,
`max_value = 0`, `max_possible = 10`, the claim predicts `max_value`
becomes the new value 6, but `increment_maybe_wrap` only bumps it to 1. -/
theorem increment_override_cex :
    ((increment_maybe_wrap
        { initState with value := 5, max_value := 0, max_possible := 10 }).1.value = 6) ∧
    ((increment_maybe_wrap
        { initState with value := 5, max_value := 0, max_possible := 10 }).1.max_value = 1) ∧
    ¬ ((increment_maybe_wrap
        { initState with value := 5, max_value := 0, max_possible := 10 }).1.max_value = 6) := by
  decide

/-- C2 (amended): whenever `value < max_possible`, `increment_maybe_wrap`
increases `value` by exactly 1 and reports no wrap; when the new value
exceeds `max_value` it increases `max_value` by exactly 1 — which equals
the new value precisely when `max_value ≥ value` held beforehand (true in
every state not disturbed by a `value` override). -/
theorem increment_below_ceiling (s : GState) (hv : s.value < s.max_possible)
    (hmp : s.max_possible ≤ 255) :
    (increment_maybe_wrap s).1.value = s.value + 1 ∧
    (increment_maybe_wrap s).2 = false ∧
    (s.max_value < s.value + 1 →
      (increment_maybe_wrap s).1.max_value = s.max_value + 1) ∧
    (s.value + 1 ≤ s.max_value →
      (increment_maybe_wrap s).1.max_value = s.max_value) ∧
    (s.value ≤ s.max_value → s.max_value < s.value + 1 →
      (increment_maybe_wrap s).1.max_value = s.value + 1) := by
  rw [increment_lt_spec s hv hmp]
  refine ⟨rfl, rfl, ?_, ?_, ?_⟩
  · intro h
    simp only [if_pos h]
  · intro h
    simp only [if_neg (by omega : ¬ s.max_value < s.value + 1)]
  · intro h1 h2
    simp only [if_pos h2]
    omega

/-- C2 witness: the amended increment facts at the concrete state
`value = 3`, `max_value = 3`, `max_possible = 5`. -/
theorem increment_below_ceiling_witness :
    (increment_maybe_wrap
      { initState with value := 3, max_value := 3, max_possible := 5 }).1.value = 3 + 1 :=
  (increment_below_ceiling
    { initState with value := 3, max_value := 3, max_possible := 5 }
    (by decide) (by decide)).1

/-- Running `k` increments that all stay below the ceiling: every call
reports no wrap, the value advances by `k` and the ceiling is untouched. -/
theorem runIncrements_no_wrap (k : Nat) :
    ∀ s : GState, s.value + k ≤ s.max_possible → s.max_possible ≤ 255 →
      (runIncrements k s).1.value = s.value + k ∧
      (runIncrements k s).1.max_possible = s.max_possible ∧
      (runIncrements k s).2 = List.replicate k false := by
  induction k with
  | zero =>
    intro s _ _
    exact ⟨rfl, rfl, rfl⟩
  | succ k ih =>
    intro s h1 h2
    have hv : s.value < s.max_possible := by omega
    have hval : (increment_maybe_wrap s).1.value = s.value + 1 := by
      rw [increment_lt_spec s hv h2]
    have hmp : (increment_maybe_wrap s).1.max_possible = s.max_possible := by
      rw [increment_lt_spec s hv h2]
    have hflag : (increment_maybe_wrap s).2 = false := by
      rw [increment_lt_spec s hv h2]
    obtain ⟨h3, h4, h5⟩ := ih (increment_maybe_wrap s).1 (by omega) (by omega)
    simp only [runIncrements]
    refine ⟨by omega, by omega, ?_⟩
    rw [List.replicate_succ]
    simp [hflag, h5]

/-- Splitting a run of increments. -/
theorem runIncrements_add (m n : Nat) (s : GState) :
    runIncrements (m + n) s =
      ((runIncrements n (runIncrements m s).1).1,
       (runIncrements m s).2 ++ (runIncrements n (runIncrements m s).1).2) := by
  induction m generalizing s with
  | zero => simp [runIncrements]
  | succ m ih =>
    have h : m + 1 + n = (m + n) + 1 := by omega
    rw [h]
    simp only [runIncrements]
    rw [ih]
    simp

/-- C3: from value 0 under ceiling `M = max_possible`, `M + 1` consecutive
increments report no wrap on each of the first `M` calls and a wrap exactly
once, on the final call; the value ends at 0 and the wrapping call leaves
`max_value` exactly as the first `M` calls left it. -/
theorem increment_wraps_once_at_end (s : GState) (h0 : s.value = 0)
    (hmp : s.max_possible ≤ 255) :
    (runIncrements (s.max_possible + 1) s).2
      = List.replicate s.max_possible false ++ [true] ∧
    (runIncrements (s.max_possible + 1) s).1.value = 0 ∧
    (runIncrements (s.max_possible + 1) s).1.max_value
      = (runIncrements s.max_possible s).1.max_value := by
  obtain ⟨h1, h2, h3⟩ := runIncrements_no_wrap s.max_possible s (by omega) hmp
  have hmid : s.max_possible ≤ (runIncrements s.max_possible s).1.value := by omega
  have hwrap := increment_ge_spec (runIncrements s.max_possible s).1 (by omega)
  rw [runIncrements_add s.max_possible 1 s]
  simp only [runIncrements, hwrap, h3]
  simp

/-- C3 witness: the run of `max_possible + 1 = 4` increments from the
concrete state with ceiling 3 and value 0. -/
theorem increment_wraps_once_at_end_witness :
    (runIncrements ({ initState with max_possible := 3 }.max_possible + 1)
        { initState with max_possible := 3 }).2
      = List.replicate { initState with max_possible := 3 }.max_possible false ++ [true] :=
  (increment_wraps_once_at_end { initState with max_possible := 3 }
    (by decide) (by decide)).1

/-- The shift-or loop computes the all-ones pattern `2 ^ n - 1` for any LED
count the parser can produce (at most 8). -/
theorem mpLoop_eq_pow (n : Nat) (h : n ≤ 8) : mpLoop n = 2 ^ n - 1 := by
  interval_cases n <;> decide

/-- C8: `setup_max_possible` sets `max_possible = 2 ^ led_count - 1` (0 for
0 LEDs); the value is reset to 0 exactly when it exceeded the new ceiling
and kept otherwise, and `max_value` is untouched. -/
theorem setup_max_possible_spec (s : GState) (h : s.leds.length ≤ 8) :
    (setup_max_possible s).max_possible = 2 ^ s.leds.length - 1 ∧
    (2 ^ s.leds.length - 1 < s.value → (setup_max_possible s).value = 0) ∧
    (s.value ≤ 2 ^ s.leds.length - 1 → (setup_max_possible s).value = s.value) ∧
    (setup_max_possible s).max_value = s.max_value := by
  have hmp := mpLoop_eq_pow s.leds.length h
  simp only [setup_max_possible, hmp]
  refine ⟨by trivial, ?_, ?_, by trivial⟩
  · intro hgt
    simp only [if_pos hgt]
  · intro hle
    simp only [if_neg (by omega : ¬ 2 ^ s.leds.length - 1 < s.value)]

/-- C8 witness: dropping from 3 LEDs (value 9 no longer fits after moving to
2 LEDs) resets the value to 0 and keeps `max_value`. -/
theorem setup_max_possible_spec_witness :
    (setup_max_possible
        { initState with leds := [⟨false, 5⟩, ⟨false, 6⟩], value := 9, max_value := 9 }).max_possible
      = 2 ^ 2 - 1 :=
  (setup_max_possible_spec
      { initState with leds := [⟨false, 5⟩, ⟨false, 6⟩], value := 9, max_value := 9 }
      (by decide)).1

/-- The LED bit loop keeps the number of LEDs. -/
theorem setLedsLoop_length (b : Nat) (ls : List Led) :
    (setLedsLoop b ls).length = ls.length := by
  induction ls generalizing b with
  | nil => rfl
  | cons l tl ih => simp [setLedsLoop, ih]

/-- The LED bit loop puts bit `i` of `bits` at position `i`. -/
theorem setLedsLoop_getD (b : Nat) (ls : List Led) (i : Nat) (h : i < ls.length) :
    ((setLedsLoop b ls).getD i default).is_on = b.testBit i := by
  induction ls generalizing b i with
  | nil => simp at h
  | cons l tl ih =>
    cases i with
    | zero => simp [setLedsLoop, Nat.testBit_zero]
    | succ i =>
      have h' : i < tl.length := by simpa using h
      simp only [setLedsLoop, List.getD_cons_succ, Nat.testBit_succ]
      exact ih (b / 2) i h'

/-- C9: for every pin count `N ≤ 8` and value `v ≤ 2 ^ N - 1`,
`set_leds_from_value` produces exactly `N` on/off positions and position `i`
(least-significant bit first) is on iff bit `i` of `v` is set. -/
theorem set_leds_encodes_bits (env : Env) (s : GState) (N : Nat)
    (hlen : s.leds.length = N) (hN : N ≤ 8) (hv : s.value ≤ 2 ^ N - 1) :
    ((set_leds_from_value env s).1.leds.length = N) ∧
    ∀ i, i < N →
      (((set_leds_from_value env s).1.leds.getD i default).is_on
        = s.value.testBit i) := by
  have hpow : 2 ^ N ≤ 2 ^ 8 := Nat.pow_le_pow_right (by norm_num) hN
  have hv255 : s.value < 256 := by omega
  have hmod : s.value % 256 = s.value := Nat.mod_eq_of_lt hv255
  have hleds : (set_leds_from_value env s).1.leds = setLedsLoop (s.value % 256) s.leds := rfl
  constructor
  · rw [hleds, setLedsLoop_length, hlen]
  · intro i hi
    rw [hleds, hmod]
    exact setLedsLoop_getD s.value s.leds i (by omega)

/-- C9 witness: two LEDs displaying value 2 (binary 10): low LED off, high
LED on. -/
theorem set_leds_encodes_bits_witness :
    ((set_leds_from_value noGpio
        { initState with leds := [⟨false, 5⟩, ⟨false, 6⟩], value := 2 }).1.leds.length = 2) :=
  (set_leds_encodes_bits noGpio
      { initState with leds := [⟨false, 5⟩, ⟨false, 6⟩], value := 2 } 2
      rfl (by decide) (by decide)).1

/-- Neither the increment nor the LED re-application touches the debounce
timestamp. -/
theorem last_msec_frame (env : Env) (s : GState) :
    (increment_maybe_wrap s).1.last_interrupt_time_msec = s.last_interrupt_time_msec ∧
    (set_leds_from_value env s).1.last_interrupt_time_msec = s.last_interrupt_time_msec := by
  constructor
  · simp only [increment_maybe_wrap]
    split_ifs <;> rfl
  · rfl

/-- C5: a trigger at time `now` is accepted iff the unsigned 32-bit
wraparound difference to the last accepted timestamp is at least 200 ms.
A rejected trigger leaves the whole state (timestamp, counter, LEDs)
unchanged; an accepted one first records `now`, then increments the counter
and re-applies the LED output. -/
theorem debounce_gate_spec (env : Env) (now : Nat) (s : GState) :
    (sub32 now s.last_interrupt_time_msec < 200 →
      button_irq_handler env now s = (s, [])) ∧
    (200 ≤ sub32 now s.last_interrupt_time_msec →
      button_irq_handler env now s =
        set_leds_from_value env
          (increment_maybe_wrap
            { s with last_interrupt_time_msec := now % 2 ^ 32 }).1) ∧
    (200 ≤ sub32 now s.last_interrupt_time_msec →
      (button_irq_handler env now s).1.last_interrupt_time_msec = now % 2 ^ 32) := by
  refine ⟨?_, ?_, ?_⟩
  · intro h
    simp [button_irq_handler, h]
  · intro h
    simp [button_irq_handler, Nat.not_lt.mpr h]
  · intro h
    simp only [button_irq_handler, if_neg (Nat.not_lt.mpr h)]
    rw [(last_msec_frame env _).2,
        (last_msec_frame env { s with last_interrupt_time_msec := now % 2 ^ 32 }).1]

/-- C10: both counter stores truncate the parsed decimal to 8 bits
(`t mod 256`, e.g. 300 stores 44) and always report the write as
successful by returning `count`. -/
theorem stores_truncate_mod_256 (env : Env) (t count : Nat) (s : GState) :
    (value_store env t count s).1.value = t % 256 ∧
    (value_store env t count s).2 = count ∧
    (max_value_store t count s).1.max_value = t % 256 ∧
    (max_value_store t count s).2 = count ∧
    (value_store env 300 count s).1.value = 44 := by
  have h : t % 2 ^ 32 % 256 = t % 256 := Nat.mod_mod_of_dvd t (by norm_num)
  exact ⟨h, rfl, h, rfl, by rfl⟩

/-- C1 (defect witnessed): `assign_leds` with GPIO enabled on descriptor
"5,7,200", where only pins below 100 are valid (first invalid index
k = 2), and with the uninitialized rollback index `j` holding the garbage
value 1.  The call returns `-ENODEV` and zeroes the counters, but the
rollback loop `for (uint8_t j = j; j < i; j++)` releases only index 1
(pin 7) — pin 5 stays configured and is never driven off or freed — and
the LED table keeps its 3 entries instead of ending empty. -/
theorem assign_leds_rollback_defect :
    (assign_leds ⟨true, fun g => decide (g < 100), 0⟩ 0 1
        ("5,7,200".toList) initState).2.1 = -19 ∧
    (assign_leds ⟨true, fun g => decide (g < 100), 0⟩ 0 1
        ("5,7,200".toList) initState).1.leds.length = 3 ∧
    (assign_leds ⟨true, fun g => decide (g < 100), 0⟩ 0 1
        ("5,7,200".toList) initState).2.2
      = [HwOp.dirOutput 5 0, HwOp.dirOutput 7 0, HwOp.setVal 7 0, HwOp.freeGpio 7] ∧
    (assign_leds ⟨true, fun g => decide (g < 100), 0⟩ 0 1
        ("5,7,200".toList) initState).1.value = 0 ∧
    (assign_leds ⟨true, fun g => decide (g < 100), 0⟩ 0 1
        ("5,7,200".toList) initState).1.max_possible = 0 := by
  decide

/-- C4, counterexample: a descriptor with 9 comma-separated fields whose
9th field has 4 digits is a parse error that resets the pin count to 0 —
not, as claimed, a successful parse of the first 8 pins that ignores the
remainder. -/
theorem parse_overlong_ninth_field_cex :
    parseLoop 0 ("1,2,3,4,5,6,7,8,1234".toList) [] [] = none ∧
    (assign_leds noGpio 0 0 ("1,2,3,4,5,6,7,8,1234".toList) initState).2.1 = -22 ∧
    (assign_leds noGpio 0 0 ("1,2,3,4,5,6,7,8,1234".toList) initState).1.leds.length = 0 := by
  decide

/-- C4 (amended): empty fields and fields over 3 digits are errors leaving
the pin count at 0, "5,12,200" parses to pins [5, 12, 200], and with more
than 8 fields the scan stops at the end of the 9th field — which must
itself still be nonempty and at most 3 characters — after which the whole
remainder of the descriptor is ignored, whatever it contains. -/
theorem parse_descriptor_spec :
    parseLoop 0 ("5,12,200".toList) [] []
      = some [⟨false, 5⟩, ⟨false, 12⟩, ⟨false, 200⟩] ∧
    parseLoop 0 ("5,,12".toList) [] [] = none ∧
    parseLoop 0 ("1234".toList) [] [] = none ∧
    parseLoop 0 [] [] [] = none ∧
    parseLoop 0 ("5,".toList) [] [] = none ∧
    (assign_leds noGpio 0 0 ("5,,12".toList) initState).1.leds.length = 0 ∧
    (assign_leds noGpio 0 0 ("1234".toList) initState).1.leds.length = 0 ∧
    parseLoop 0 ("1,2,3,4,5,6,7,8,9".toList) [] []
      = some [⟨false, 1⟩, ⟨false, 2⟩, ⟨false, 3⟩, ⟨false, 4⟩,
              ⟨false, 5⟩, ⟨false, 6⟩, ⟨false, 7⟩, ⟨false, 8⟩] ∧
    ∀ rest : List Char,
      parseLoop 0 ("1,2,3,4,5,6,7,8,9,".toList ++ rest) [] []
        = some [⟨false, 1⟩, ⟨false, 2⟩, ⟨false, 3⟩, ⟨false, 4⟩,
                ⟨false, 5⟩, ⟨false, 6⟩, ⟨false, 7⟩, ⟨false, 8⟩] := by
  refine ⟨by decide, by decide, by decide, by decide, by decide, by decide,
          by decide, by decide, ?_⟩
  intro rest
  rfl

/-- C6, counterexample: with GPIO enabled and the hardware rejecting every
pin, writing pin 5 through `gpio_button_increment_store` is reported back
as success (the byte count, not an error), and the requested pin stays
stored — even though `assign_increment_button` returned `-EINVAL`
internally. -/
theorem button_store_swallows_error_cex :
    (gpio_button_increment_store ⟨true, fun _ => false, 0⟩ 5 1 initState).2 = 1 ∧
    (gpio_button_increment_store
        ⟨true, fun _ => false, 0⟩ 5 1 initState).1.gpio_increment_button = 5 ∧
    (gpio_button_increment_store
        ⟨true, fun _ => false, 0⟩ 5 1 initState).1.irq_registered = false ∧
    (assign_increment_button ⟨true, fun _ => false, 0⟩
        { initState with gpio_increment_button := 5 }).2 = -22 := by
  decide

/-- C6 (amended): when a button assignment through the control surface
fails (invalid pin, or `request_irq` failure), `assign_increment_button`
does signal the error to its caller inside the store operation, but the
control-surface write itself discards that error — it always returns
`count` (success) — and the requested pin id remains stored in
`gpio_increment_button`.  The failing assignment registers no new handler;
whether a previously live handler survives depends on the previous pin:
the release path (gpiocount.c:300) is guarded by
`gpio_increment_button > 0`, so a handler live on a nonzero pin is freed,
while a handler live on pin 0 skips `free_irq` and remains registered
after the failure. -/
theorem button_assign_failure_spec (env : Env) (t count : Nat) (s : GState)
    (hg : env.enable_gpio = true)
    (hfail : env.gpio_is_valid (t % 2 ^ 32 % 256) = false ∨
      env.request_irq_result ≠ 0) :
    (assign_increment_button env
        { unassign_increment_button env s with
            gpio_increment_button := t % 2 ^ 32 % 256 }).2 ≠ 0 ∧
    (gpio_button_increment_store env t count s).1.irq_registered
      = (if 0 < s.gpio_increment_button then false else s.irq_registered) ∧
    (gpio_button_increment_store env t count s).1.gpio_increment_button
      = t % 2 ^ 32 % 256 ∧
    (gpio_button_increment_store env t count s).2 = count := by
  have hu : (unassign_increment_button env s).irq_registered
      = (if 0 < s.gpio_increment_button then false else s.irq_registered) := by
    unfold unassign_increment_button
    rw [hg]
    simp only [if_true]
    split <;> rfl
  have hassign : ∀ s2 : GState, s2.gpio_increment_button = t % 2 ^ 32 % 256 →
      (assign_increment_button env s2).1 = s2 ∧
      (assign_increment_button env s2).2 ≠ 0 := by
    intro s2 hpin
    unfold assign_increment_button
    rw [hg]
    simp only [if_true]
    by_cases hval : env.gpio_is_valid s2.gpio_increment_button = false
    · rw [if_pos hval]
      exact ⟨rfl, by norm_num⟩
    · rw [if_neg hval]
      have hreq : env.request_irq_result ≠ 0 := by
        rcases hfail with h | h
        · rw [hpin] at hval
          exact absurd h hval
        · exact h
      rw [if_neg hreq]
      exact ⟨rfl, hreq⟩
  have h2 := hassign
    { unassign_increment_button env s with gpio_increment_button := t % 2 ^ 32 % 256 }
    rfl
  refine ⟨h2.2, ?_, ?_, rfl⟩
  · show (assign_increment_button env
      { unassign_increment_button env s with
          gpio_increment_button := t % 2 ^ 32 % 256 }).1.irq_registered
      = (if 0 < s.gpio_increment_button then false else s.irq_registered)
    rw [h2.1]
    exact hu
  · show (assign_increment_button env
      { unassign_increment_button env s with
          gpio_increment_button := t % 2 ^ 32 % 256 }).1.gpio_increment_button
      = t % 2 ^ 32 % 256
    rw [h2.1]

/-- C6 witness: the amended facts at a concrete failing reassignment (pin 5
requested, every pin invalid) from the state with a handler live on pin 0:
the release path skips the free and the stale handler survives the failed
reassignment. -/
theorem button_assign_failure_spec_witness :
    (gpio_button_increment_store ⟨true, fun _ => false, 0⟩ 5 1
        { initState with irq_registered := true }).1.irq_registered
      = (if 0 < ({ initState with irq_registered := true } : GState).gpio_increment_button
         then false else ({ initState with irq_registered := true } : GState).irq_registered) :=
  (button_assign_failure_spec ⟨true, fun _ => false, 0⟩ 5 1
    { initState with irq_registered := true } rfl (Or.inl rfl)).2.1

/-- The increment preserves `value ≤ max_possible`. -/
theorem inv_increment (s : GState) (h : s.value ≤ s.max_possible) :
    (increment_maybe_wrap s).1.value ≤ (increment_maybe_wrap s).1.max_possible := by
  simp only [increment_maybe_wrap]
  split_ifs <;> dsimp only <;> omega

/-- The ceiling recompute (re)establishes `value ≤ max_possible`
unconditionally. -/
theorem inv_setup (s : GState) :
    (setup_max_possible s).value ≤ (setup_max_possible s).max_possible := by
  simp only [setup_max_possible]
  split_ifs <;> omega

/-- `set_leds_from_value` leaves the three counters untouched. -/
theorem set_leds_counter_frame (env : Env) (s : GState) :
    (set_leds_from_value env s).1.value = s.value ∧
    (set_leds_from_value env s).1.max_possible = s.max_possible ∧
    (set_leds_from_value env s).1.max_value = s.max_value :=
  ⟨rfl, rfl, rfl⟩

/-- `assign_leds` preserves `value ≤ max_possible` in every outcome
(refusal, parse error, plain assignment, acquisition success or
acquisition failure with zeroed counters). -/
theorem inv_assign (env : Env) (uninit j0 : Nat) (desc : List Char) (s : GState)
    (h : s.value ≤ s.max_possible) :
    (assign_leds env uninit j0 desc s).1.value
      ≤ (assign_leds env uninit j0 desc s).1.max_possible := by
  by_cases h1 : 0 < s.leds.length
  · simp only [assign_leds, if_pos h1]
    exact h
  · rcases hp : parseLoop uninit desc [] [] with _ | leds
    · simp only [assign_leds, if_neg h1, hp]
      exact h
    · simp only [assign_leds, if_neg h1, hp]
      by_cases hg : env.enable_gpio
      · simp only [hg, if_true]
        by_cases hr : (acquireFrom env.gpio_is_valid j0 leds).1 = 0
        · simp only [if_pos hr]
          exact inv_setup _
        · simp only [if_neg hr]
          exact Nat.le_refl 0
      · simp only [hg, if_false]
        exact inv_setup _

/-- The button release and (re)assignment leave the counters untouched. -/
theorem button_ops_counter_frame (env : Env) (s : GState) :
    (unassign_increment_button env s).value = s.value ∧
    (unassign_increment_button env s).max_possible = s.max_possible ∧
    (assign_increment_button env s).1.value = s.value ∧
    (assign_increment_button env s).1.max_possible = s.max_possible := by
  refine ⟨?_, ?_, ?_, ?_⟩ <;>
    · first
      | (unfold unassign_increment_button; split_ifs <;> rfl)
      | (unfold assign_increment_button; split_ifs <;> rfl)

/-- C7, counterexample: the initial state satisfies
`value ≤ max_possible`, but the control-surface `value` write of 1 yields
`value = 1 > 0 = max_possible`: `value_store` does not preserve the
invariant as the claim asserts it does. -/
theorem value_store_breaks_invariant_cex :
    (initState.value ≤ initState.max_possible) ∧
    ¬ ((value_store noGpio 1 1 initState).1.value
        ≤ (value_store noGpio 1 1 initState).1.max_possible) := by
  decide

/-- C7 (amended): `0 ≤ value ≤ max_possible` (the lower bound is automatic
for naturals) is preserved by every core operation and control-surface
write except the `value` write: the increment, the ceiling recompute, LED
parse/acquire, LED release, LED re-encode, the `max_value` write, the
`increment` write, the `gpio_leds` write, the button interrupt handler and
the button-assignment write.  `value_store` performs no clamping and can
break the invariant (see the counterexample). -/
theorem invariant_preserved (env : Env) (uninit j0 t count now : Nat)
    (desc : List Char) (s : GState) (hinv : s.value ≤ s.max_possible) :
    ((increment_maybe_wrap s).1.value ≤ (increment_maybe_wrap s).1.max_possible) ∧
    ((setup_max_possible s).value ≤ (setup_max_possible s).max_possible) ∧
    ((assign_leds env uninit j0 desc s).1.value
      ≤ (assign_leds env uninit j0 desc s).1.max_possible) ∧
    ((unassign_leds env s).1.value ≤ (unassign_leds env s).1.max_possible) ∧
    ((set_leds_from_value env s).1.value
      ≤ (set_leds_from_value env s).1.max_possible) ∧
    ((max_value_store t count s).1.value
      ≤ (max_value_store t count s).1.max_possible) ∧
    ((increment_store env count s).1.value
      ≤ (increment_store env count s).1.max_possible) ∧
    ((gpio_leds_store env uninit j0 desc count s).1.value
      ≤ (gpio_leds_store env uninit j0 desc count s).1.max_possible) ∧
    ((button_irq_handler env now s).1.value
      ≤ (button_irq_handler env now s).1.max_possible) ∧
    ((gpio_button_increment_store env t count s).1.value
      ≤ (gpio_button_increment_store env t count s).1.max_possible) := by
  refine ⟨inv_increment s hinv, inv_setup s, inv_assign env uninit j0 desc s hinv,
          hinv, hinv, hinv, ?_, ?_, ?_, ?_⟩
  · show (set_leds_from_value env (increment_maybe_wrap s).1).1.value
      ≤ (set_leds_from_value env (increment_maybe_wrap s).1).1.max_possible
    rw [(set_leds_counter_frame env _).1, (set_leds_counter_frame env _).2.1]
    exact inv_increment s hinv
  · show (set_leds_from_value env
        (assign_leds env uninit j0 desc (unassign_leds env s).1).1).1.value
      ≤ (set_leds_from_value env
        (assign_leds env uninit j0 desc (unassign_leds env s).1).1).1.max_possible
    rw [(set_leds_counter_frame env _).1, (set_leds_counter_frame env _).2.1]
    exact inv_assign env uninit j0 desc (unassign_leds env s).1 hinv
  · unfold button_irq_handler
    split_ifs with h1
    · exact hinv
    · rw [(set_leds_counter_frame env _).1, (set_leds_counter_frame env _).2.1]
      exact inv_increment { s with last_interrupt_time_msec := now % 2 ^ 32 } hinv
  · show (assign_increment_button env
        { unassign_increment_button env s with
            gpio_increment_button := t % 2 ^ 32 % 256 }).1.value
      ≤ (assign_increment_button env
        { unassign_increment_button env s with
            gpio_increment_button := t % 2 ^ 32 % 256 }).1.max_possible
    rw [(button_ops_counter_frame env _).2.2.1, (button_ops_counter_frame env _).2.2.2]
    show (unassign_increment_button env s).value
      ≤ (unassign_increment_button env s).max_possible
    rw [(button_ops_counter_frame env s).1, (button_ops_counter_frame env s).2.1]
    exact hinv

/-- C7 witness: the preserved-invariant facts at the initial state with a
concrete environment and descriptor. -/
theorem invariant_preserved_witness :
    (increment_maybe_wrap initState).1.value
      ≤ (increment_maybe_wrap initState).1.max_possible :=
  (invariant_preserved noGpio 0 0 1 1 0 ("5".toList) initState (by decide)).1

end Gpiocount
